import Mathlib

/-
Verification of the query-routing and answer-synthesis pipeline of the
asset-insight-graph repository (src/api/graphrag.py and src/api/main.py).

The Python source is shallowly embedded: pure helper functions become Lean
functions, and the effectful pipeline (graph queries, embedding calls) is
parameterised by an explicit `Env` describing the outcomes of the external
calls, together with an explicit event trace recording which external calls
were attempted.  Python strings are Lean `String`s; Python `str.lower`,
`str.title`, `str.strip`, substring containment (`in`) and the two regular
expressions used by the source are implemented character-by-character below.
-/

set_option maxRecDepth 4096

namespace AssetInsight

/-! ## String utilities mirroring the Python primitives used by the source -/

/-- Containment test on character lists: `needle` occurs contiguously in
`hay`. This is the semantics of Python's `needle in hay` on strings. -/
def char_sub : List Char → List Char → Bool
  | n, [] => n.isEmpty
  | n, c :: t => n.isPrefixOf (c :: t) || char_sub n t

/-- Python's substring containment `needle in hay`. -/
def is_sub (needle hay : String) : Bool :=
  char_sub needle.toList hay.toList

/-- Helper for `py_title`: `prevAlpha` records whether the previous character
was alphabetic (Python capitalises a letter exactly when the preceding
character is not cased). -/
def py_title_aux : Bool → List Char → List Char
  | _, [] => []
  | prevAlpha, c :: t =>
    (if c.isAlpha then (if prevAlpha then c.toLower else c.toUpper) else c)
      :: py_title_aux c.isAlpha t

/-- Python's `str.title()` for ASCII text: the first letter of every maximal
letter run is upper-cased, the rest lower-cased. -/
def py_title (s : String) : String :=
  String.mk (py_title_aux false s.toList)

/-- Left-justify to width `n` with spaces, Python's `f"{s:<n}"`. -/
def pad_r (s : String) (n : Nat) : String :=
  s ++ String.mk (List.replicate (n - s.length) ' ')

/-- A string of `n` copies of `c`, Python's `c * n`. -/
def char_run (c : Char) (n : Nat) : String :=
  String.mk (List.replicate n c)

/-- First `n` characters, Python's `s[:n]`. -/
def py_take (s : String) (n : Nat) : String :=
  String.mk (s.toList.take n)

/-- Python's `str.lower()` for ASCII text. -/
def py_lower (s : String) : String :=
  String.mk (s.toList.map Char.toLower)

/-- Python's `str.strip()`. -/
def py_strip (s : String) : String :=
  String.mk
    (((s.toList.dropWhile Char.isWhitespace).reverse.dropWhile
        Char.isWhitespace).reverse)

/-- The `text.replace("\n", " ")` cleanup applied before embedding. -/
def py_replace_nl (s : String) : String :=
  String.mk (s.toList.map (fun c => if c == '\n' then ' ' else c))

/-- Python's `sep.join(parts)`. -/
def join_sep (sep : String) : List String → String
  | [] => ""
  | [x] => x
  | x :: xs => x ++ sep ++ join_sep sep xs

/-- Worker for `py_split`: the fuel starts at the text length, which bounds
the number of scan steps. -/
def split_str_aux (sep : List Char) : Nat → List Char → List Char →
    List (List Char)
  | _, [], acc => [acc.reverse]
  | 0, rest, acc => [acc.reverse ++ rest]
  | Nat.succ fuel, c :: t, acc =>
    if !sep.isEmpty && sep.isPrefixOf (c :: t) then
      acc.reverse :: split_str_aux sep fuel ((c :: t).drop sep.length) []
    else split_str_aux sep fuel t (c :: acc)

/-- Python's `s.split(sep)` for a non-empty literal separator. -/
def py_split (sep : String) (s : String) : List String :=
  (split_str_aux sep.toList s.toList.length s.toList []).map String.mk

/-! ## Temporal values

Dates as the ETL stores them and as the driver returns them: `PyDate` and
`PyDateTime` model Python `datetime.date`/`datetime.datetime` and the
driver's `neo4j.time.Date`/`DateTime` wrappers carry the same fields. -/

structure PyDate where
  year : Nat
  month : Nat
  day : Nat
deriving DecidableEq, Repr

structure PyDateTime where
  year : Nat
  month : Nat
  day : Nat
  hour : Nat
  minute : Nat
  second : Nat
deriving DecidableEq, Repr

/-- Zero-padded decimal rendering of width 2. -/
def pad2 (n : Nat) : String :=
  if n < 10 then "0" ++ toString n else toString n

/-- Zero-padded decimal rendering of width 4. -/
def pad4 (n : Nat) : String :=
  if n < 10 then "000" ++ toString n
  else if n < 100 then "00" ++ toString n
  else if n < 1000 then "0" ++ toString n
  else toString n

/-- Python's `date.isoformat()`. -/
def date_isoformat (d : PyDate) : String :=
  pad4 d.year ++ "-" ++ pad2 d.month ++ "-" ++ pad2 d.day

/-- Python's `datetime.isoformat()` (sub-second precision is not modelled). -/
def datetime_isoformat (d : PyDateTime) : String :=
  pad4 d.year ++ "-" ++ pad2 d.month ++ "-" ++ pad2 d.day ++ "T" ++
    pad2 d.hour ++ ":" ++ pad2 d.minute ++ ":" ++ pad2 d.second

/-- Rendering of `str(neo4j.time.Date)`, which is the ISO-8601 date. -/
def neo_date_str (d : PyDate) : String := date_isoformat d

/-- Rendering of `str(neo4j.time.DateTime)`, ISO-8601 to the second. -/
def neo_datetime_str (d : PyDateTime) : String := datetime_isoformat d

/-! ## Scalar values of result rows

Result rows coming back from the graph driver are Python dictionaries mapping
column names to scalars.  `PValue` models the scalars the pipeline actually
handles: strings, integers, numeric values (kept as their decimal rendering,
so that no floating-point arithmetic has to be modelled), booleans, `None`,
and the driver's native `neo4j.time.Date` wrapper, which is what date-typed
properties such as `mv.date` hold in a session result before
serialize_neo4j_types runs at the transport boundary. -/

inductive PValue where
  | s (v : String)
  | n (v : Int)
  | dec (v : String)
  | b (v : Bool)
  | nul
  | ndate (d : PyDate)
deriving DecidableEq, Repr

/-- A result row: an ordered mapping column name → scalar, the shape of one
element of `result.data()` in the driver session protocol. -/
def Row : Type := List (String × PValue)

instance : DecidableEq Row := by unfold Row; infer_instance

/-- First value bound to key `k`, Python's `dict[k]` / `dict.get(k)`. -/
def row_lookup : Row → String → Option PValue
  | [], _ => none
  | (k2, v) :: t, k => if k2 == k then some v else row_lookup t k

/-- Python's `k in dict`. -/
def row_has (r : Row) (k : String) : Bool :=
  (row_lookup r k).isSome

/-- Python's `dict.get(k, d)`. -/
def get_or (r : Row) (k : String) (d : PValue) : PValue :=
  (row_lookup r k).getD d

/-- Python's `str(v)` on the modelled scalars. -/
def py_str : PValue → String
  | .s v => v
  | .n v => toString v
  | .dec v => v
  | .b true => "True"
  | .b false => "False"
  | .nul => "None"
  | .ndate d => neo_date_str d

/-- Python truthiness of the modelled scalars (`if v:`). A `dec` value is
falsy exactly when it renders a zero, matching `0.0` being falsy. -/
def truthy : PValue → Bool
  | .s v => !v.isEmpty
  | .n v => v != 0
  | .dec v => !(v == "0" || v == "0.0" || v.isEmpty)
  | .b v => v
  | .nul => false
  | .ndate _ => true

/-- Python's slicing `x[:n]` as the formatters apply it to raw row values:
defined on strings, a `TypeError` on every other scalar (`None`, numbers,
booleans and the driver's `neo4j.time.Date` do not support `__getitem__`). -/
def py_slice : PValue → Nat → Except String String
  | .s v, n => .ok (py_take v n)
  | .n _, _ => .error "\x27int\x27 object is not subscriptable"
  | .dec _, _ => .error "\x27float\x27 object is not subscriptable"
  | .b _, _ => .error "\x27bool\x27 object is not subscriptable"
  | .nul, _ => .error "\x27NoneType\x27 object is not subscriptable"
  | .ndate _, _ => .error "\x27neo4j.time.Date\x27 object is not subscriptable"

/-- The string value bound to `k`, with `""` when the key is absent: the
source's `item.get(k, '')` followed by string use.  Non-string scalars under
these keys do not occur in the modelled rows. -/
def get_str (r : Row) (k : String) : String :=
  match row_lookup r k with
  | some (.s v) => v
  | _ => ""

/-! ## Intent classification (GraphRAG.classify_intent)

The classifier is deterministic and synchronous apart from the `async`
keyword; confidences are modelled as rationals, with the Python float
literals `0.98` etc. read as the rationals they denote. -/

inductive QueryCategory where
  | economic_data
  | geographic_assets
  | geographic_semantic_combined
  | portfolio_analysis
  | semantic_search
  | trend_analysis
  | unknown
deriving DecidableEq, Repr

structure IntentClassification where
  category : QueryCategory
  confidence : ℚ
  reasoning : String
deriving DecidableEq, Repr

def semantic_keywords : List String :=
  ["sustainable", "esg", "renewable", "green", "luxury", "premium",
   "high-end", "environmental", "carbon", "solar", "energy", "eco-friendly",
   "similar to", "like", "comparable"]

def geographic_keywords : List String :=
  ["california", "texas", "los angeles", "houston", "austin",
   "properties in", "assets in", "located in", "chicago", "milwaukee",
   "wisconsin", "missouri"]

def economic_keywords : List String :=
  ["unemployment", "interest rate", "mortgage", "federal funds",
   "economic", "rate"]

def portfolio_keywords : List String :=
  ["portfolio", "distribution", "how many", "count", "platform", "breakdown"]

def trend_keywords : List String :=
  ["trend", "change", "over time", "historical", "compare"]

/-- The classifier's `has_semantic` local: each keyword is lower-cased before
the containment test. -/
def has_semantic (question : String) : Bool :=
  semantic_keywords.any (fun k => is_sub (py_lower k) (py_lower question))

/-- The classifier's `has_geographic` local. -/
def has_geographic (question : String) : Bool :=
  geographic_keywords.any (fun k => is_sub k (py_lower question))

def has_economic (question : String) : Bool :=
  economic_keywords.any (fun k => is_sub k (py_lower question))

def has_portfolio (question : String) : Bool :=
  portfolio_keywords.any (fun k => is_sub k (py_lower question))

def has_trend (question : String) : Bool :=
  trend_keywords.any (fun k => is_sub k (py_lower question))

/-- GraphRAG.classify_intent: priority-ordered keyword dispatch, first match
wins. -/
def classify_intent (question : String) : IntentClassification :=
  if has_semantic question && has_geographic question then
    ⟨.geographic_semantic_combined, 98/100,
      "Question combines geographic filtering with semantic search criteria"⟩
  else if has_semantic question then
    ⟨.semantic_search, 95/100,
      "Contains semantic keywords requiring vector search"⟩
  else if has_economic question then
    ⟨.economic_data, 90/100, "Question asks about economic indicators"⟩
  else if has_portfolio question then
    ⟨.portfolio_analysis, 95/100,
      "Question asks about portfolio composition or asset counts"⟩
  else if has_geographic question then
    ⟨.geographic_assets, 90/100,
      "Question refers to specific geographic locations"⟩
  else if has_trend question then
    ⟨.trend_analysis, 85/100,
      "Question asks about trends or changes over time"⟩
  else
    ⟨.unknown, 1/2, "Could not classify query into known categories"⟩

/-! ## Economic query generation (CypherTemplate.generate_economic_query) -/

def latest_metric_template : String :=
  "\n                MATCH (mt:MetricType \x7bname: $metric_name\x7d)-[:TAIL]->(mv:MetricValue)\n                RETURN mt.name AS metric, mv.value AS current_value, mv.date AS current_date\n            "

def trend_analysis_template : String :=
  "\n                MATCH (mt:MetricType \x7bname: $metric_name\x7d)-[:HEAD]->(first:MetricValue)\n                MATCH (mt)-[:TAIL]->(last:MetricValue)\n                RETURN mt.name AS metric, \n                       first.value AS start_value, first.date AS start_date,\n                       last.value AS end_value, last.date AS end_date,\n                       last.value - first.value AS change\n            "

/-- CypherTemplate.economic_metrics, in dictionary insertion order (the order
in which `generate_economic_query` probes the keys). -/
def economic_metrics : List (String × String) :=
  [("unemployment", "Unemployment Rate"),
   ("california unemployment", "California Unemployment Rate"),
   ("texas unemployment", "Texas Unemployment Rate"),
   ("mortgage", "30-Year Mortgage Rate"),
   ("30 year", "30-Year Mortgage Rate"),
   ("federal funds", "Federal Funds Rate"),
   ("fed funds", "Federal Funds Rate")]

/-- The metric-selection loop of `generate_economic_query`: first key that is
a substring of the lower-cased question wins. -/
def find_metric : List (String × String) → String → Option String
  | [], _ => none
  | (k, v) :: t, qL => if is_sub k qL then some v else find_metric t qL

/-- CypherTemplate.generate_economic_query. -/
def generate_economic_query (question : String) :
    String × List (String × PValue) :=
  let qL := py_lower question
  let metric_name := (find_metric economic_metrics qL).getD
    "California Unemployment Rate"
  let params := [("metric_name", PValue.s metric_name)]
  if is_sub "trend" qL || is_sub "change" qL then
    (trend_analysis_template, params)
  else
    (latest_metric_template, params)

/-! ## Portfolio query generation (CypherTemplate.generate_portfolio_query) -/

def portfolio_platform_template : String :=
  "\n                MATCH (a:Asset) \n                RETURN a.platform AS category, COUNT(a) AS count \n                ORDER BY count DESC\n            "

def portfolio_region_template : String :=
  "\n                MATCH (a:Asset)-[:LOCATED_IN]->(:City)-[:PART_OF]->(:State)-[:PART_OF]->(r:Region) \n                RETURN r.name AS category, COUNT(a) AS count \n                ORDER BY count DESC\n            "

def portfolio_investment_type_template : String :=
  "\n                MATCH (a:Asset) \n                RETURN a.investment_type AS category, COUNT(a) AS count \n                ORDER BY count DESC\n            "

def portfolio_building_type_template : String :=
  "\n                MATCH (a:Asset) \n                RETURN a.building_type AS category, COUNT(a) AS count \n                ORDER BY count DESC\n            "

def portfolio_state_template : String :=
  "\n                MATCH (a:Asset)-[:LOCATED_IN]->(:City)-[:PART_OF]->(s:State) \n                RETURN s.name AS category, COUNT(a) AS count \n                ORDER BY count DESC\n            "

/-- CypherTemplate.generate_portfolio_query. -/
def generate_portfolio_query (question : String) :
    String × List (String × PValue) :=
  let qL := py_lower question
  if is_sub "platform" qL then (portfolio_platform_template, [])
  else if is_sub "region" qL then (portfolio_region_template, [])
  else if is_sub "investment" qL && is_sub "type" qL then
    (portfolio_investment_type_template, [])
  else if is_sub "building" qL && is_sub "type" qL then
    (portfolio_building_type_template, [])
  else if is_sub "state" qL then (portfolio_state_template, [])
  else (portfolio_platform_template, [])

/-! ## Distance clause recognition

Both `generate_geographic_query` and `_format_geographic_answer` apply
`re.search` with the pattern
`within\s+(\d+)\s*(km|kilometer|mile|miles)\s+of\s+([^.]+)` to the
lower-cased question.  The search is embedded as a scan that attempts the
match at every position, leftmost match first, with the alternation tried in
the pattern's order and each alternative required to support the rest of the
pattern (the regex backtracking behaviour). -/

structure DistanceClause where
  digits : String
  unit : String
  reference : String
deriving DecidableEq, Repr

/-- Matches `\s+of\s+([^.]+)` and returns the final greedy group. -/
def after_unit (rest : List Char) : Option String :=
  if (rest.takeWhile Char.isWhitespace).isEmpty then none else
  let r := rest.dropWhile Char.isWhitespace
  if "of".toList.isPrefixOf r then
    let r2 := r.drop 2
    if (r2.takeWhile Char.isWhitespace).isEmpty then none else
    let r3 := r2.dropWhile Char.isWhitespace
    let ref := r3.takeWhile (fun c => c != '.')
    if ref.isEmpty then none else some (String.mk ref)
  else none

/-- Tries the unit alternatives in the pattern's order; an alternative only
succeeds if the tail of the pattern matches after it. -/
def try_units : List String → List Char → Option (String × String)
  | [], _ => none
  | u :: t, cs =>
    if u.toList.isPrefixOf cs then
      match after_unit (cs.drop u.length) with
      | some ref => some (u, ref)
      | none => try_units t cs
    else try_units t cs

def unit_alternatives : List String := ["km", "kilometer", "mile", "miles"]

/-- Attempts the whole distance pattern at the head of `cs`. -/
def match_distance_at (cs : List Char) : Option DistanceClause :=
  if "within".toList.isPrefixOf cs then
    let r1 := cs.drop 6
    if (r1.takeWhile Char.isWhitespace).isEmpty then none else
    let r2 := r1.dropWhile Char.isWhitespace
    let ds := r2.takeWhile Char.isDigit
    if ds.isEmpty then none else
    let r3 := (r2.dropWhile Char.isDigit).dropWhile Char.isWhitespace
    match try_units unit_alternatives r3 with
    | some (u, ref) => some ⟨String.mk ds, u, ref⟩
    | none => none
  else none

/-- The `re.search`: leftmost position at which the pattern matches. -/
def find_distance : List Char → Option DistanceClause
  | [] => none
  | c :: t =>
    match match_distance_at (c :: t) with
    | some d => some d
    | none => find_distance t

/-- Python's `int` on a digit group. -/
def digits_to_nat (s : String) : Nat :=
  s.toList.foldl (fun a c => a * 10 + (c.toNat - 48)) 0

/-! ## Geographic query generation (CypherTemplate.generate_geographic_query) -/

def state_filter_template : String :=
  "\n                MATCH (a:Asset) \n                WHERE a.state = $state_name\n                RETURN a.name, a.city, a.state, a.building_type, a.platform\n                ORDER BY a.name\n            "

def state_type_filter_template : String :=
  "\n                MATCH (a:Asset) \n                WHERE a.state = $state_name AND a.building_type = $building_type\n                RETURN a.name, a.city, a.state, a.building_type, a.platform\n                ORDER BY a.name\n            "

def city_filter_template : String :=
  "\n                MATCH (a:Asset) \n                WHERE a.city = $city_name\n                RETURN a.name, a.city, a.state, a.building_type, a.platform\n                ORDER BY a.name\n            "

def city_type_filter_template : String :=
  "\n                MATCH (a:Asset) \n                WHERE a.city = $city_name AND a.building_type = $building_type\n                RETURN a.name, a.city, a.state, a.building_type, a.platform\n                ORDER BY a.name\n            "

def region_filter_template : String :=
  "\n                MATCH (a:Asset)-[:LOCATED_IN]->(:City)-[:PART_OF]->(:State)-[:PART_OF]->(r:Region \x7bname: $region_name\x7d)\n                RETURN a.name, a.city, a.state, a.building_type, a.platform\n                ORDER BY a.name\n            "

def region_type_filter_template : String :=
  "\n                MATCH (a:Asset)-[:LOCATED_IN]->(:City)-[:PART_OF]->(:State)-[:PART_OF]->(r:Region \x7bname: $region_name\x7d)\n                WHERE a.building_type = $building_type\n                RETURN a.name, a.city, a.state, a.building_type, a.platform\n                ORDER BY a.name\n            "

def all_assets_template : String :=
  "\n                MATCH (a:Asset)\n                RETURN a.name, a.city, a.state, a.building_type, a.platform\n                ORDER BY a.state, a.city, a.name\n            "

def distance_query_template : String :=
  "\n            // First find the reference location (could be a city or asset)\n            OPTIONAL MATCH (refAsset:Asset)\n            WHERE toLower(refAsset.name) CONTAINS toLower($reference)\n            \n            OPTIONAL MATCH (refCity:City)\n            WHERE toLower(refCity.name) CONTAINS toLower($reference)\n            \n            // Use whichever reference we found\n            WITH COALESCE(refAsset.location, refCity.location) AS ref_point\n            WHERE ref_point IS NOT NULL\n            \n            // Find assets within distance\n            MATCH (a:Asset)\n            WHERE a.location IS NOT NULL\n            WITH a, ref_point, toInteger($distance) AS distance, $unit AS unit,\n                 point.distance(a.location, ref_point) AS distance_meters\n            WHERE (unit IN ['km', 'kilometer'] AND distance_meters <= distance * 1000) OR\n                  (unit IN ['mile', 'miles'] AND distance_meters <= distance * 1609.34)\n            RETURN a.name, a.city, a.state, a.building_type, a.platform,\n                   round(distance_meters/1000, 1) AS distance_km\n            ORDER BY distance_meters\n            "

def geo_states : List String :=
  ["california", "texas", "illinois", "missouri", "wisconsin"]

def geo_cities : List String :=
  ["los angeles", "houston", "austin", "chicago", "milwaukee", "appleton",
   "west hollywood"]

def geo_regions : List String :=
  ["west", "southwest", "midwest", "northeast", "southeast"]

/-- First candidate that occurs in the lower-cased question (the `for ... if
... in question_lower` loops). -/
def first_hit : List String → String → Option String
  | [], _ => none
  | c :: t, qL => if is_sub c qL then some c else first_hit t qL

/-- CypherTemplate.generate_geographic_query. -/
def generate_geographic_query (question : String) :
    String × List (String × PValue) :=
  let qL := py_lower question
  match find_distance qL.toList with
  | some d =>
    (distance_query_template,
     [("reference", PValue.s (py_strip d.reference)),
      ("distance", PValue.n (digits_to_nat d.digits)),
      ("unit", PValue.s d.unit)])
  | none =>
    let bt : Option String :=
      if is_sub "mixed use" qL then some "Mixed Use"
      else if is_sub "commercial" qL then some "Commercial"
      else if is_sub "residential" qL then some "Residential"
      else if is_sub "infrastructure" qL then some "Infrastructure"
      else none
    match first_hit geo_states qL with
    | some st =>
      (match bt with
       | some b => (state_type_filter_template,
           [("state_name", PValue.s (py_title st)),
            ("building_type", PValue.s b)])
       | none => (state_filter_template,
           [("state_name", PValue.s (py_title st))]))
    | none =>
      match first_hit geo_cities qL with
      | some ct =>
        (match bt with
         | some b => (city_type_filter_template,
             [("city_name", PValue.s (py_title ct)),
              ("building_type", PValue.s b)])
         | none => (city_filter_template,
             [("city_name", PValue.s (py_title ct))]))
      | none =>
        match first_hit geo_regions qL with
        | some rg =>
          (match bt with
           | some b => (region_type_filter_template,
               [("region_name", PValue.s (py_title rg)),
                ("building_type", PValue.s b)])
           | none => (region_filter_template,
               [("region_name", PValue.s (py_title rg))]))
        | none => (all_assets_template, [])

/-! ## Semantic query generation (CypherTemplate.generate_semantic_query) -/

def property_search_template : String :=
  "\n                MATCH (a:Asset) \n                WHERE a.property_description CONTAINS $keyword1 \n                   OR a.property_description CONTAINS $keyword2 \n                   OR a.property_description CONTAINS $keyword3\n                RETURN a.name, a.city, a.state, a.building_type, a.property_description\n                ORDER BY a.name\n            "

def sustainability_keywords : List String :=
  ["sustainable", "ESG", "renewable", "green", "environmental", "solar",
   "energy"]

def luxury_keywords : List String :=
  ["luxury", "premium", "high-end", "upscale", "exclusive"]

/-- CypherTemplate.generate_semantic_query.  The keywords are tested verbatim
against the lower-cased question, as in the source (so the upper-case "ESG"
entry can never match). -/
def generate_semantic_query (question : String) :
    String × List (String × PValue) :=
  let qL := py_lower question
  if sustainability_keywords.any (fun k => is_sub k qL) then
    (property_search_template,
     [("keyword1", PValue.s "sustainable"), ("keyword2", PValue.s "ESG"),
      ("keyword3", PValue.s "renewable")])
  else if luxury_keywords.any (fun k => is_sub k qL) then
    (property_search_template,
     [("keyword1", PValue.s "luxury"), ("keyword2", PValue.s "premium"),
      ("keyword3", PValue.s "upscale")])
  else
    (property_search_template,
     [("keyword1", PValue.s "sustainable"), ("keyword2", PValue.s "ESG"),
      ("keyword3", PValue.s "renewable")])

/-! ## Geographic filter extraction and application -/

structure GeoFilters where
  state : Option String := none
  city : Option String := none
  region : Option String := none
deriving DecidableEq, Repr

def filter_states : List String :=
  ["california", "texas", "illinois", "missouri", "wisconsin", "new york",
   "georgia", "arizona"]

def filter_cities : List String :=
  ["los angeles", "houston", "austin", "chicago", "milwaukee", "appleton",
   "west hollywood", "atlanta", "new york", "phoenix"]

def filter_regions : List String :=
  ["west", "southwest", "midwest", "northeast", "southeast"]

/-- GraphRAG._extract_geographic_filter: each of the three scans sets its key
to the title-cased first hit, independently of the others. -/
def extract_geographic_filter (question : String) : GeoFilters :=
  let qL := py_lower question
  { state := (first_hit filter_states qL).map py_title
    city := (first_hit filter_cities qL).map py_title
    region := (first_hit filter_regions qL).map py_title }

/-- Python truthiness of the filter dictionary (`if geo_filters:`). -/
def geo_nonempty (f : GeoFilters) : Bool :=
  f.state.isSome || f.city.isSome || f.region.isSome

/-- CypherTemplate.state_regions. -/
def state_regions : List (String × String) :=
  [("California", "West"), ("Texas", "Southwest"), ("Illinois", "Midwest"),
   ("Missouri", "Midwest"), ("Wisconsin", "Midwest")]

/-- One iteration of the loop body of `_apply_geographic_filter`: whether the
asset row matches the filters, with the state key taking priority over city,
and city over region. -/
def asset_matches (f : GeoFilters) (r : Row) : Bool :=
  match f.state with
  | some s => py_lower (get_str r "state") == py_lower s
  | none =>
    match f.city with
    | some c => py_lower (get_str r "city") == py_lower c
    | none =>
      match f.region with
      | some reg =>
        (match state_regions.lookup (get_str r "state") with
         | some ar => py_lower ar == py_lower reg
         | none => false)
      | none => false

/-- GraphRAG._apply_geographic_filter. -/
def apply_geographic_filter (data : List Row) (f : GeoFilters) : List Row :=
  if geo_nonempty f = false then data
  else data.filter (asset_matches f)

/-! ## Asset name extraction (GraphRAG._extract_asset_name) -/

def known_asset_names : List String :=
  ["the independent", "innovation plaza", "the lot at formosa",
   "front & york", "centennial yards", "the adeline", "the view apartments",
   "tribune tower", "terreva renewables", "aquamarine solar project",
   "antelope valley water bank", "maryville carbon solutions"]

def find_known_asset : List String → String → Option String
  | [], _ => none
  | a :: t, qL => if is_sub a qL then some (py_title a) else find_known_asset t qL

/-- Remainder after the first occurrence of `pat` (`re.search` on a literal
pattern followed by a capture). -/
def after_first (pat : String) : List Char → Option (List Char)
  | [] => if pat.isEmpty then some [] else none
  | c :: t =>
    if pat.toList.isPrefixOf (c :: t) then some ((c :: t).drop pat.length)
    else after_first pat t

/-- Models the lazy capture `(.+?)(?:\s|$)`: the shortest non-empty prefix
followed by whitespace or the end of the string, which for text not starting
with whitespace is the run up to the first whitespace character. -/
def first_word_capture (rest : List Char) : Option String :=
  if rest.isEmpty then none
  else some (String.mk (rest.takeWhile (fun c => !c.isWhitespace)))

/-- The `re.sub(r'[.!?]$', '', s)` cleanup: drops one trailing sentence
punctuation character. -/
def strip_end_punct (s : String) : String :=
  match s.toList.reverse with
  | c :: t => if c == '.' || c == '!' || c == '?' then String.mk t.reverse else s
  | [] => s

def similarity_patterns : List String :=
  ["similar to ", "like ", "comparable to "]

def try_patterns : List String → List Char → Option String
  | [], _ => none
  | p :: ps, cs =>
    match after_first p cs with
    | some rest =>
      (match first_word_capture rest with
       | some w => some (py_title (strip_end_punct (py_strip w)))
       | none => try_patterns ps cs)
    | none => try_patterns ps cs

/-- GraphRAG._extract_asset_name. -/
def extract_asset_name (question : String) : String :=
  let qL := py_lower question
  match find_known_asset known_asset_names qL with
  | some a => a
  | none => (try_patterns similarity_patterns qL.toList).getD ""

/-! ## Answer formatters -/

/-- One iteration of the row-extraction loop of `_format_portfolio_table`.
The `category` scalar is rendered with `py_str` here; the original keeps the
raw value and lets the f-string render it at table-building time, which is
the same text for the modelled scalars. -/
def portfolio_row (item : Row) : Option (String × String) :=
  if row_has item "category" && row_has item "count" then
    some (py_str (get_or item "category" .nul),
          py_str (get_or item "count" .nul))
  else if row_has item "platform" || row_has item "investment_type" ||
      row_has item "region" then
    some (py_str (get_or item "platform"
            (get_or item "investment_type" (get_or item "region" (.s "Unknown")))),
          py_str (get_or item "count" (get_or item "COUNT(a)" (.s "N/A"))))
  else
    match item.map Prod.snd with
    | v0 :: v1 :: _ => some (py_str v0, py_str v1)
    | _ => none

/-- GraphRAG._format_portfolio_table. -/
def format_portfolio_table (data : List Row) : String :=
  if data.isEmpty then "No portfolio data found."
  else
    let rows := data.filterMap portfolio_row
    if rows.isEmpty then "No portfolio data found."
    else
      join_sep "\n"
        (["Portfolio Distribution:", char_run '=' 40,
          pad_r "Category" 20 ++ " " ++ pad_r "Count" 10, char_run '-' 40] ++
         rows.map (fun rc => pad_r rc.1 20 ++ " " ++ pad_r rc.2 10))

/-- Python's `item.get(k1) or item.get(k2) or d`: first truthy value. -/
def py_or_str (item : Row) (k1 k2 : String) (d : String) : String :=
  match row_lookup item k1 with
  | some v =>
    if truthy v then py_str v
    else
      (match row_lookup item k2 with
       | some w => if truthy w then py_str w else d
       | none => d)
  | none =>
    match row_lookup item k2 with
    | some w => if truthy w then py_str w else d
    | none => d

/-- The `item.get('distance_km') is not None` probe. -/
def has_distance_row (item : Row) : Bool :=
  match row_lookup item "distance_km" with
  | some PValue.nul => false
  | some _ => true
  | none => false

/-- Truncation `(s[:keep] + "...") if len(s) > lim else s`. -/
def trunc (s : String) (keep lim : Nat) : String :=
  if s.length > lim then py_take s keep ++ "..." else s

/-- Field extraction of one row in `_format_asset_table`, without the
distance column. -/
def asset_columns (item : Row) : String × String × String × String :=
  let name := py_or_str item "name" "a.name" "Unknown Asset"
  let city := py_or_str item "city" "a.city" ""
  let state := py_or_str item "state" "a.state" ""
  let building_type := py_or_str item "building_type" "a.building_type" "Unknown"
  let platform := py_or_str item "platform" "a.platform" "Unknown"
  let location :=
    if !city.isEmpty && !state.isEmpty then city ++ ", " ++ state
    else if !city.isEmpty then city
    else if !state.isEmpty then state
    else "Unknown"
  (name, location, building_type, platform)

/-- The distance column of one row: `f"{distance_km} km"` when the value is
truthy, else `"N/A"`. -/
def distance_column (item : Row) : String :=
  let dv := get_or item "distance_km" (.s "")
  if truthy dv then py_str dv ++ " km" else "N/A"

/-- One table line without distance. -/
def asset_line (item : Row) : String :=
  let (name, location, building_type, platform) := asset_columns item
  pad_r (trunc name 27 30) 30 ++ " " ++ pad_r (trunc location 22 25) 25 ++ " " ++
    pad_r (trunc building_type 17 20) 20 ++ " " ++ pad_r (trunc platform 12 15) 15

/-- One table line with distance. -/
def asset_line_distance (item : Row) : String :=
  asset_line item ++ " " ++ pad_r (distance_column item) 10

/-- GraphRAG._format_asset_table. -/
def format_asset_table (data : List Row) : String :=
  if data.isEmpty then "No assets found."
  else
    let has_distance := data.any has_distance_row
    if data.isEmpty then "No assets found."
    else if has_distance then
      join_sep "\n"
        (["Asset Details:", char_run '=' 120,
          pad_r "Asset Name" 30 ++ " " ++ pad_r "Location" 25 ++ " " ++
            pad_r "Type" 20 ++ " " ++ pad_r "Platform" 15 ++ " " ++
            pad_r "Distance" 10,
          char_run '-' 120] ++ data.map asset_line_distance)
    else
      join_sep "\n"
        (["Asset Details:", char_run '=' 120,
          pad_r "Asset Name" 30 ++ " " ++ pad_r "Location" 25 ++ " " ++
            pad_r "Type" 20 ++ " " ++ pad_r "Platform" 15,
          char_run '-' 100] ++ data.map asset_line)

/-- One iteration of the row-extraction loop of `_format_economic_data`.
The metric and date positions keep the raw scalar: the source appends
`item['metric']` and `item.get('current_date', 'N/A')` unconverted and only
the table-building loop slices them, so non-string values raise there, not
here.  The value position is always a string (an f-string or `str(...)` in
every branch).  In the generic (non-metric) branch with exactly two keys the
original raises an IndexError on `keys[2]` and the enclosing handler's
except-clause fires; that case is modelled as an empty third column, and
never occurs on the rows the economic templates produce. -/
def economic_row (item : Row) : Option (PValue × String × PValue) :=
  if row_has item "metric" then
    let metric := get_or item "metric" .nul
    if row_has item "current_value" then
      some (metric, py_str (get_or item "current_value" .nul),
            get_or item "current_date" (.s "N/A"))
    else if row_has item "change" then
      some (metric,
            py_str (get_or item "start_value" (.s "N/A")) ++ " â†’ " ++
              py_str (get_or item "end_value" (.s "N/A")) ++ " (Î”" ++
              py_str (get_or item "change" (.s "N/A")) ++ ")",
            .s (py_str (get_or item "start_date" (.s "")) ++ " to " ++
              py_str (get_or item "end_date" (.s ""))))
    else
      (match item.map Prod.snd with
       | _ :: v1 :: v2 :: _ => some (metric, py_str v1, .s (py_str v2))
       | _ :: v1 :: _ => some (metric, py_str v1, .s "N/A")
       | _ => some (metric, "N/A", .s "N/A"))
  else
    match item with
    | (_, v0) :: (_, v1) :: rest =>
      some (.s (py_str v0), py_str v1,
            .s (match rest with
                | (_, v2) :: _ => py_str v2
                | [] => ""))
    | _ => none

/-- One line of the economic table,
`f"{metric[:24]:<25} {value[:24]:<25} {date[:24]:<25}"`: the slices of the
raw metric and date cells raise a TypeError on non-string values, evaluated
left to right as in the f-string. -/
def render_economic_line (r : PValue × String × PValue) : Except String String :=
  match py_slice r.1 24 with
  | .error e => .error e
  | .ok m =>
    match py_slice r.2.2 24 with
    | .error e => .error e
    | .ok d =>
      .ok (pad_r m 25 ++ " " ++ pad_r (py_take r.2.1 24) 25 ++ " " ++
        pad_r d 25)

/-- The table-building loop of `_format_economic_data`: the first failing
row's TypeError propagates. -/
def render_economic_lines :
    List (PValue × String × PValue) → Except String (List String)
  | [] => .ok []
  | r :: t =>
    match render_economic_line r with
    | .error e => .error e
    | .ok line =>
      match render_economic_lines t with
      | .error e => .error e
      | .ok lines => .ok (line :: lines)

/-- GraphRAG._format_economic_data.  The result is `.error` exactly when the
body raises (a TypeError from slicing a non-string metric or date cell), in
which case the calling handler's except-branch fires. -/
def format_economic_data (data : List Row) : Except String String :=
  if data.isEmpty then .ok "No economic data found."
  else
    let rows := data.filterMap economic_row
    if rows.isEmpty then .ok "No economic data found."
    else
      match render_economic_lines rows with
      | .error e => .error e
      | .ok body =>
        .ok (join_sep "\n"
          (["Economic Data:", char_run '=' 80,
            pad_r "Metric" 25 ++ " " ++ pad_r "Value" 25 ++ " " ++
              pad_r "Date" 25,
            char_run '-' 80] ++ body))

/-- GraphRAG._format_geographic_answer. -/
def format_geographic_answer (data : List Row) (question : String) : String :=
  if data.isEmpty then "No matching assets found for this geographic query."
  else
    match find_distance (py_lower question).toList with
    | some d =>
      let ref := (py_strip d.reference)
      if data.length == 1 then
        "Found " ++ toString data.length ++ " asset within " ++ d.digits ++
          " " ++ d.unit ++ " of " ++ ref ++ "."
      else
        "Found " ++ toString data.length ++ " assets within " ++ d.digits ++
          " " ++ d.unit ++ " of " ++ ref ++ "."
    | none =>
      let qL := py_lower question
      let location_name :=
        if is_sub "california" qL then "California"
        else if is_sub "texas" qL then "Texas"
        else if is_sub "los angeles" qL then "Los Angeles"
        else if is_sub "houston" qL then "Houston"
        else if is_sub "austin" qL then "Austin"
        else if is_sub "chicago" qL then "Chicago"
        else "the specified location"
      if data.length == 1 then
        "Found " ++ toString data.length ++ " asset in " ++ location_name ++ "."
      else
        "Found " ++ toString data.length ++ " assets in " ++ location_name ++ "."

/-! ## External effects

`Env` fixes the outcome of every external call a request can make: the
OpenAI credential lookup, the embedding call, the vector-index query and the
graph-session query.  `Event` records which external calls were attempted
during a run; the pipeline functions below return their event trace alongside
their result. -/

inductive Event where
  | embed (text : String)
  | dbQuery (cypher : String)
deriving DecidableEq, Repr

/-- Number of embedding-provider calls in a trace. -/
def count_embeds : List Event → Nat
  | [] => 0
  | .embed _ :: t => 1 + count_embeds t
  | .dbQuery _ :: t => count_embeds t

structure Env where
  openaiKey : Option String
  embed : String → Except String Unit
  vectorQuery : String → Except String (List Row)
  runQuery : String → List (String × PValue) → Except String (List Row)

/-- GraphRAG.execute_cypher_query: the whole body is wrapped in
`try/except`, so any failure of the session protocol yields `[]` instead of
propagating. -/
def execute_cypher_query (env : Env) (cypher : String)
    (params : List (String × PValue)) : List Row :=
  match env.runQuery cypher params with
  | .ok rows => rows
  | .error _ => []

/-- One line of the result summary built inside `_vector_search_tool`.  The
`:.3f` rendering of the similarity score is modelled by storing scores as
their three-decimal rendering in the row. -/
def format_vector_item (r : Row) : String :=
  get_str r "asset_name" ++ " (" ++ get_str r "city" ++ ", " ++
    get_str r "state" ++ ") - " ++ get_str r "building_type" ++
    " (similarity: " ++ py_str (get_or r "similarity_score" .nul) ++ ")"

/-- GraphRAG._vector_search_tool: returns a text summary in every case; its
own `try/except` converts any provider or driver failure into an error
string. -/
def vector_search_tool (env : Env) (text : String) : String :=
  match env.openaiKey with
  | none => "Vector search requires OpenAI API key to be configured."
  | some _ =>
    let t := py_replace_nl text
    match env.embed t with
    | .error e => "Vector search error: " ++ e
    | .ok _ =>
      match env.vectorQuery t with
      | .error e => "Vector search error: " ++ e
      | .ok data =>
        if data.isEmpty then "No semantically similar assets found."
        else
          "Found " ++ toString data.length ++
            " semantically similar assets: " ++
            join_sep ", " (data.map format_vector_item)

/-- The trace of one `_vector_search_tool` call: the embedding call is
attempted whenever the credential is configured. -/
def vector_search_events (env : Env) (text : String) : List Event :=
  match env.openaiKey with
  | none => []
  | some _ => [.embed (py_replace_nl text)]

/-! ## Parsing the vector summary (GraphRAG._parse_vector_search_results)

The original applies two regular expressions to the summary string.  They
are embedded as a scanner: the header pattern
`Found \d+ semantically similar assets:\s*(.+)` locates the item list, and
the item pattern
`([A-Za-z\s&'-]+?)\s*\(([^)]+)\)\s*-\s*([^(]+?)\s*\(similarity:\s*([0-9.]+)\)`
is matched left to right by a recursive-descent matcher equivalent to the
regex on the grammar the summary formatter produces. -/

def name_char (c : Char) : Bool :=
  c.isAlpha || c.isWhitespace || c == '&' || c == '\x27' || c == '-'

/-- Attempts the header pattern at the head of `cs`, returning the text
after the colon and any following whitespace. -/
def header_at (cs : List Char) : Option (List Char) :=
  if "Found ".toList.isPrefixOf cs then
    let r := cs.drop 6
    let ds := r.takeWhile Char.isDigit
    if ds.isEmpty then none else
    let r2 := r.dropWhile Char.isDigit
    let hdr := " semantically similar assets:"
    if hdr.toList.isPrefixOf r2 then
      let r3 := (r2.drop hdr.length).dropWhile Char.isWhitespace
      if r3.isEmpty then none else some r3
    else none
  else none

/-- The `re.search` for the header: leftmost matching position. -/
def drop_header : List Char → Option (List Char)
  | [] => none
  | c :: t =>
    match header_at (c :: t) with
    | some rest => some rest
    | none => drop_header t

/-- Row construction from one item match, with the source's cleanups: strip,
leading comma/whitespace removal, `', '`-split of the location, and the
`platform: Infrastructure` default assumption. -/
def mk_parsed_row (name loc bt score : List Char) : Row :=
  let nm := String.mk ((py_strip (String.mk name)).toList.dropWhile
    (fun c => c == ',' || c.isWhitespace))
  let location := py_strip (String.mk loc)
  let parts := py_split ", " location
  let city := parts.headD ""
  let state := parts.getD 1 ""
  [("name", PValue.s nm), ("city", PValue.s city), ("state", PValue.s state),
   ("building_type", PValue.s (py_strip (String.mk bt))),
   ("platform", PValue.s "Infrastructure"),
   ("similarity_score", PValue.dec (String.mk score))]

/-- Attempts one item match at the head of `cs`. -/
def try_item (cs : List Char) : Option (Row × List Char) :=
  let name := cs.takeWhile name_char
  if name.isEmpty then none else
  match cs.dropWhile name_char with
  | '(' :: r2 =>
    let loc := r2.takeWhile (fun c => c != ')')
    if loc.isEmpty then none else
    (match r2.dropWhile (fun c => c != ')') with
     | ')' :: r3 =>
       (match r3.dropWhile Char.isWhitespace with
        | '-' :: r5 =>
          let r6 := r5.dropWhile Char.isWhitespace
          let bt := r6.takeWhile (fun c => c != '(')
          if bt.isEmpty then none else
          (match r6.dropWhile (fun c => c != '(') with
           | '(' :: r7 =>
             if "similarity:".toList.isPrefixOf r7 then
               let r8 := (r7.drop 11).dropWhile Char.isWhitespace
               let score := r8.takeWhile (fun c => c.isDigit || c == '.')
               if score.isEmpty then none else
               (match r8.dropWhile (fun c => c.isDigit || c == '.') with
                | ')' :: r9 => some (mk_parsed_row name loc bt score, r9)
                | _ => none)
             else none
           | _ => none)
        | _ => none)
     | _ => none)
  | _ => none

/-- The `findall` scan: emit the match at the current position if there is
one, otherwise advance one character.  The fuel starts at the text length,
which bounds the number of scan steps. -/
def parse_assets_aux : Nat → List Char → List Row
  | 0, _ => []
  | Nat.succ fuel, cs =>
    match try_item cs with
    | some (r, rest) => r :: parse_assets_aux fuel rest
    | none =>
      match cs with
      | [] => []
      | _ :: t => parse_assets_aux fuel t

/-- GraphRAG._parse_vector_search_results; its `try/except` returns `[]` on
any failure, and the header search failing also returns `[]`. -/
def parse_vector_search_results (s : String) : List Row :=
  match drop_header s.toList with
  | none => []
  | some cs => parse_assets_aux cs.length cs

/-! ## The response object

`Response` carries the union of the keys the handler dictionaries build;
keys a given dictionary omits are `none`. -/

structure Response where
  answer : String
  cypher : Option String
  data : List Row
  question : String
  pattern_matched : Bool
  query_type : Option String := none
  geographic_filters : Option GeoFilters := none
  intent : Option IntentClassification := none
  system_used : Option String := none
  geospatial_enabled : Option Bool := none
  vector_search : Option Bool := none
  error : Option String := none
deriving DecidableEq

/-! ## Query handlers -/

/-- GraphRAG._handle_portfolio_query.  The except-branch of the original is
unreachable in the embedding because `execute_cypher_query` already absorbs
session failures and the formatter is total on the modelled rows. -/
def handle_portfolio_query (env : Env) (q : String)
    (i : IntentClassification) : Response × List Event :=
  let cp := generate_portfolio_query q
  let data := execute_cypher_query env cp.1 cp.2
  ({ answer := format_portfolio_table data, cypher := some (py_strip cp.1),
     data := data, question := q, pattern_matched := true,
     query_type := some "portfolio_template_generated", intent := some i,
     system_used := some "graphrag", geospatial_enabled := some true },
   [.dbQuery cp.1])

/-- GraphRAG._handle_geographic_query (its except-branch, which would defer
to the general handler, is likewise unreachable in the embedding). -/
def handle_geographic_query (env : Env) (q : String)
    (i : IntentClassification) : Response × List Event :=
  let cp := generate_geographic_query q
  let data := execute_cypher_query env cp.1 cp.2
  ({ answer := format_geographic_answer data q, cypher := some (py_strip cp.1),
     data := data, question := q, pattern_matched := true,
     query_type := some "geographic_template_generated", intent := some i,
     geospatial_enabled := some true },
   [.dbQuery cp.1])

/-- GraphRAG._handle_economic_query.  When the formatter raises (a TypeError
from a non-string metric or date cell), the except-branch returns its error
dictionary with pattern_matched = False and empty data. -/
def handle_economic_query (env : Env) (q : String)
    (i : IntentClassification) : Response × List Event :=
  let cp := generate_economic_query q
  let data := execute_cypher_query env cp.1 cp.2
  match format_economic_data data with
  | .ok a =>
    ({ answer := a, cypher := some (py_strip cp.1), data := data,
       question := q, pattern_matched := true,
       query_type := some "economic_template_generated", intent := some i,
       system_used := some "graphrag", geospatial_enabled := some true },
     [.dbQuery cp.1])
  | .error e =>
    ({ answer := "Economic query failed: " ++ e, cypher := none, data := [],
       question := q, pattern_matched := false, error := some e },
     [.dbQuery cp.1])

/-- GraphRAG._handle_trend_query, with the analogous except-branch for a
formatter TypeError on non-empty data. -/
def handle_trend_query (env : Env) (q : String)
    (i : IntentClassification) : Response × List Event :=
  let cp := generate_economic_query q
  let data := execute_cypher_query env cp.1 cp.2
  if data.isEmpty then
    ({ answer := "Trend analysis for: " ++ q, cypher := some (py_strip cp.1),
       data := data, question := q, pattern_matched := true,
       query_type := some "trend_template_generated", intent := some i,
       system_used := some "graphrag", geospatial_enabled := some true },
     [.dbQuery cp.1])
  else
    match format_economic_data data with
    | .ok a =>
      ({ answer := a, cypher := some (py_strip cp.1), data := data,
         question := q, pattern_matched := true,
         query_type := some "trend_template_generated", intent := some i,
         system_used := some "graphrag", geospatial_enabled := some true },
       [.dbQuery cp.1])
    | .error e =>
      ({ answer := "Trend analysis failed: " ++ e, cypher := none, data := [],
         question := q, pattern_matched := false, error := some e },
       [.dbQuery cp.1])

/-- GraphRAG._handle_general_query: the fallback portfolio probe.  Note that
its success dictionary carries `pattern_matched: False` together with
whatever rows the probe returned. -/
def handle_general_query (env : Env) (q : String)
    (i : IntentClassification) : Response × List Event :=
  let cp := generate_portfolio_query q
  let data := execute_cypher_query env cp.1 cp.2
  ({ answer :=
       if data.isEmpty then
         "I couldn\x27t find specific information for that question. Try asking about portfolio distribution, assets in specific locations, or economic indicators."
       else format_portfolio_table data,
     cypher := some (if data.isEmpty then "" else (py_strip cp.1)),
     data := data, question := q, pattern_matched := false,
     query_type := some "general_fallback", intent := some i,
     system_used := some "graphrag", geospatial_enabled := some true },
   [.dbQuery cp.1])

/-- The answer text of the combined geographic+semantic success dictionary
(the appended bullet lines reproduce the source file's literal bytes). -/
def combined_answer (filtered : List Row) : String :=
  "Found " ++ toString filtered.length ++ " assets matching your criteria:" ++
    String.join (filtered.map (fun a =>
      "\nâ€¢ " ++ get_str a "name" ++ " (" ++ get_str a "city" ++ ", " ++
        get_str a "state" ++ ") - " ++ get_str a "building_type"))

/-- The answer text of the no-results branch of the combined path. -/
def no_results_answer (geo : GeoFilters) : String :=
  let geo_desc :=
    match geo.state with
    | some s => "in " ++ s
    | none =>
      match geo.city with
      | some c => "in " ++ c
      | none =>
        match geo.region with
        | some r => "in the " ++ r ++ " region"
        | none => ""
  "No assets found matching your criteria " ++ geo_desc ++
    ". Found semantically similar assets in other locations, but none in the specified geographic area."

/-- Message of the UnboundLocalError raised when the pure-semantic branch
reaches its return statement without `answer` having been assigned (the
vector summary did not contain "Found ... semantically similar"). -/
def unbound_local_message : String :=
  "local variable \x27answer\x27 referenced before assignment"

/-- The geographic-only fallback inside `_handle_semantic_query` (vector
search unavailable or unparseable while geographic filters are present). -/
def semantic_geo_fallback (env : Env) (q : String) (i : IntentClassification)
    (geo : GeoFilters) (ev1 : List Event) : Option Response × List Event :=
  let cp := generate_geographic_query q
  let data := execute_cypher_query env cp.1 cp.2
  (some { answer :=
            if data.isEmpty then "No assets found in the specified location."
            else format_asset_table data,
          cypher := some (py_strip cp.1), data := data, question := q,
          pattern_matched := true,
          query_type := some "geographic_fallback_search",
          geographic_filters := some geo, intent := some i,
          system_used := some "graphrag", geospatial_enabled := some true },
   ev1 ++ [.dbQuery cp.1])

/-- The `if not geo_filters:` block at the end of `_handle_semantic_query`:
a fresh vector search, with template fallback when the summary cannot be
parsed, and the UnboundLocalError path when the summary reports no hits. -/
def semantic_no_geo_block (env : Env) (q : String)
    (i : IntentClassification) : Option Response × List Event :=
  let vres := vector_search_tool env q
  let ev := vector_search_events env q
  if is_sub "Found" vres && is_sub "semantically similar" vres then
    let vdata := parse_vector_search_results vres
    if vdata.isEmpty then
      let cp := generate_semantic_query q
      let backup := execute_cypher_query env cp.1 cp.2
      if backup.isEmpty then
        (some { answer := "No assets found matching your semantic search criteria.",
                cypher := some (py_strip cp.1), data := [], question := q,
                pattern_matched := true,
                query_type := some "semantic_vector_search",
                vector_search := some true, intent := some i,
                system_used := some "graphrag",
                geospatial_enabled := some true },
         ev ++ [.dbQuery cp.1])
      else
        (some { answer := format_asset_table backup,
                cypher := some (py_strip cp.1), data := backup, question := q,
                pattern_matched := true,
                query_type := some "semantic_vector_search",
                vector_search := some true, intent := some i,
                system_used := some "graphrag",
                geospatial_enabled := some true },
         ev ++ [.dbQuery cp.1])
    else
      (some { answer := vres,
              cypher := some "Vector similarity search using embeddings",
              data := vdata, question := q, pattern_matched := true,
              query_type := some "semantic_vector_search",
              vector_search := some true, intent := some i,
              system_used := some "graphrag",
              geospatial_enabled := some true },
       ev)
  else
    (some { answer := "Semantic search failed: " ++ unbound_local_message,
            cypher := none, data := [], question := q,
            pattern_matched := false, error := some unbound_local_message,
            vector_search := some false },
     ev)

/-- The text embedded in the asset-similarity branch. -/
def similar_query_text (q : String) : String :=
  let an := extract_asset_name q
  if an.isEmpty then q
  else "Properties like " ++ an ++ " mixed use development"

/-- GraphRAG._handle_semantic_query.  In the asset-similarity branch with
geographic filters present, no return statement of the original executes and
the coroutine returns `None`; the embedding returns `none` there. -/
def handle_semantic_query (env : Env) (q : String)
    (i : IntentClassification) : Option Response × List Event :=
  let qL := py_lower q
  let geo := extract_geographic_filter q
  if is_sub "similar to" qL || is_sub "like" qL || is_sub "comparable" qL then
    let ev1 := vector_search_events env (similar_query_text q)
    if geo_nonempty geo then (none, ev1)
    else
      let res := semantic_no_geo_block env q i
      (res.1, ev1 ++ res.2)
  else if geo_nonempty geo then
    let vres := vector_search_tool env q
    let ev1 := vector_search_events env q
    if is_sub "Found" vres && is_sub "semantically similar" vres then
      let vdata := parse_vector_search_results vres
      if vdata.isEmpty then semantic_geo_fallback env q i geo ev1
      else
        let filtered := apply_geographic_filter vdata geo
        if filtered.isEmpty then
          (some { answer := no_results_answer geo,
                  cypher := some "Vector search with geographic filtering (no results)",
                  data := [], question := q, pattern_matched := true,
                  query_type := some "geographic_semantic_search_no_results",
                  geographic_filters := some geo, intent := some i,
                  system_used := some "graphrag",
                  geospatial_enabled := some true },
           ev1)
        else
          (some { answer := combined_answer filtered,
                  cypher := some "Vector search with geographic filtering",
                  data := filtered, question := q, pattern_matched := true,
                  query_type := some "geographic_semantic_vector_search",
                  geographic_filters := some geo, intent := some i,
                  system_used := some "graphrag",
                  geospatial_enabled := some true },
           ev1)
    else semantic_geo_fallback env q i geo ev1
  else
    let ev1 := vector_search_events env q
    let res := semantic_no_geo_block env q i
    (res.1, ev1 ++ res.2)

/-- GraphRAG.answer_question: classify, then route. -/
def answer_question (env : Env) (q : String) : Option Response × List Event :=
  let intent := classify_intent q
  match intent.category with
  | .semantic_search => handle_semantic_query env q intent
  | .geographic_semantic_combined => handle_semantic_query env q intent
  | .portfolio_analysis =>
    let r := handle_portfolio_query env q intent; (some r.1, r.2)
  | .geographic_assets =>
    let r := handle_geographic_query env q intent; (some r.1, r.2)
  | .economic_data =>
    let r := handle_economic_query env q intent; (some r.1, r.2)
  | .trend_analysis =>
    let r := handle_trend_query env q intent; (some r.1, r.2)
  | .unknown =>
    let r := handle_general_query env q intent; (some r.1, r.2)

/-! ## Result normalization (src/api/main.py, serialize_neo4j_types)

The value universe of a driver result object: temporal values (Python
`date`/`datetime` and the driver's `neo4j.time.Date`/`DateTime` wrappers),
plain scalars, dictionaries and lists.  Dictionaries and lists are their own
mutual inductives so that structural recursion and induction stay
straightforward. -/

mutual
inductive JVal where
  | date (d : PyDate)
  | datetime (d : PyDateTime)
  | neoDate (d : PyDate)
  | neoDateTime (d : PyDateTime)
  | str (s : String)
  | int (n : Int)
  | real (q : ℚ)
  | bool (b : Bool)
  | none
  | dict (fs : JFields)
  | list (vs : JItems)

inductive JItems where
  | nil
  | cons (v : JVal) (t : JItems)

inductive JFields where
  | nil
  | cons (k : String) (v : JVal) (t : JFields)
end

mutual
/-- serialize_neo4j_types from src/api/main.py: driver temporal wrappers via
`str(...)`, Python temporals via `.isoformat()`, recursion through
dictionaries and lists, everything else unchanged. -/
def serialize_neo4j_types : JVal → JVal
  | .neoDate d => .str (neo_date_str d)
  | .neoDateTime d => .str (neo_datetime_str d)
  | .date d => .str (date_isoformat d)
  | .datetime d => .str (datetime_isoformat d)
  | .dict fs => .dict (serialize_fields fs)
  | .list vs => .list (serialize_items vs)
  | .str s => .str s
  | .int n => .int n
  | .real q => .real q
  | .bool b => .bool b
  | .none => .none

/-- The dictionary comprehension `\x7bkey: serialize_neo4j_types(value) ...\x7d`. -/
def serialize_fields : JFields → JFields
  | .nil => .nil
  | .cons k v t => .cons k (serialize_neo4j_types v) (serialize_fields t)

/-- The list comprehension `[serialize_neo4j_types(item) ...]`. -/
def serialize_items : JItems → JItems
  | .nil => .nil
  | .cons v t => .cons (serialize_neo4j_types v) (serialize_items t)
end

mutual
/-- Whether a value contains no temporal value anywhere. -/
def temporal_free : JVal → Bool
  | .date _ => false
  | .datetime _ => false
  | .neoDate _ => false
  | .neoDateTime _ => false
  | .dict fs => temporal_free_fields fs
  | .list vs => temporal_free_items vs
  | _ => true

def temporal_free_fields : JFields → Bool
  | .nil => true
  | .cons _ v t => temporal_free v && temporal_free_fields t

def temporal_free_items : JItems → Bool
  | .nil => true
  | .cons v t => temporal_free v && temporal_free_items t
end

/-! ## State normalization

Modelled from the spec: no `normalize_state` function exists under src/ (the
geographic templates only title-case members of a fixed state list), so the
entity/state normalizer of spec §4.1 is modelled from the spec's words: a
static alias table over the graph's states (full names, abbreviations, known
typos), exact case-insensitive lookup first, then a fuzzy pass accepting a
candidate iff the length difference is at most 2 and the positional
character mismatches are at most 2, and otherwise the title-cased input. -/

def state_alias_table : List (String × String) :=
  [("california", "California"), ("ca", "California"), ("cali", "California"),
   ("texas", "Texas"), ("tx", "Texas"),
   ("illinois", "Illinois"), ("il", "Illinois"),
   ("missouri", "Missouri"), ("mo", "Missouri"),
   ("wisconsin", "Wisconsin"), ("wi", "Wisconsin")]

/-- Modelled from the spec: exact case-insensitive lookup in the alias
table. -/
def alias_lookup (s : String) : Option String :=
  state_alias_table.lookup (py_lower s)

/-- Number of positions at which the two strings disagree, counted over the
common prefix length. -/
def mismatch_count : List Char → List Char → Nat
  | [], _ => 0
  | _, [] => 0
  | x :: xs, y :: ys => (if x == y then 0 else 1) + mismatch_count xs ys

def fuzzy_find : List (String × String) → String → Option String
  | [], _ => none
  | (k, v) :: t, sL =>
    if Int.natAbs ((k.length : Int) - (sL.length : Int)) ≤ 2 ∧
        mismatch_count k.toList sL.toList ≤ 2 then some v
    else fuzzy_find t sL

/-- Modelled from the spec: the fuzzy pass over the same alias table, on the
lower-cased input. -/
def fuzzy_lookup (s : String) : Option String :=
  fuzzy_find state_alias_table (py_lower s)

/-- Modelled from the spec: the total state/entity normalizer of §4.1. -/
def normalize_state (s : String) : String :=
  match alias_lookup s with
  | some v => v
  | none =>
    match fuzzy_lookup s with
    | some v => v
    | none => py_title s

/-! ## Concrete environments used by the closed theorems -/

/-- Environment with no OpenAI credential, whose graph sessions return one
portfolio row. -/
def env0 : Env :=
  { openaiKey := none
    embed := fun _ => .error "no key"
    vectorQuery := fun _ => .ok []
    runQuery := fun _ _ =>
      .ok [[("category", PValue.s "Real Estate"), ("count", PValue.n 12)]] }

/-- Environment with a configured credential whose vector index holds a
single Wisconsin asset. -/
def env1 : Env :=
  { openaiKey := some "sk-test"
    embed := fun _ => .ok ()
    vectorQuery := fun _ =>
      .ok [[("asset_name", PValue.s "Terreva Renewables"),
            ("city", PValue.s "Appleton"), ("state", PValue.s "Wisconsin"),
            ("platform", PValue.s "Infrastructure"),
            ("building_type", PValue.s "Energy Infrastructure"),
            ("similarity_score", PValue.dec "0.747"),
            ("description", PValue.s "Renewable natural gas platform")]]
    runQuery := fun _ _ => .ok [] }

/-- Environment in which every external call fails. -/
def env_err : Env :=
  { openaiKey := none
    embed := fun _ => .error "offline"
    vectorQuery := fun _ => .error "offline"
    runQuery := fun _ _ => .error "connection refused" }

/-! ## Claim C4: classifier priority order -/

/-- C4: the intent classifier applies its keyword rules in fixed priority
order with first match winning, returning the claimed category and
confidence at each tier; in particular any question containing both
"sustainable" and "Texas" (case-insensitively) classifies as
GeographicSemanticCombined. -/
theorem claim4_classifier_priority :
    (∀ q, has_semantic q = true → has_geographic q = true →
      classify_intent q = ⟨.geographic_semantic_combined, 98/100,
        "Question combines geographic filtering with semantic search criteria"⟩) ∧
    (∀ q, has_semantic q = true → has_geographic q = false →
      classify_intent q = ⟨.semantic_search, 95/100,
        "Contains semantic keywords requiring vector search"⟩) ∧
    (∀ q, has_semantic q = false → has_economic q = true →
      classify_intent q = ⟨.economic_data, 90/100,
        "Question asks about economic indicators"⟩) ∧
    (∀ q, has_semantic q = false → has_economic q = false →
      has_portfolio q = true →
      classify_intent q = ⟨.portfolio_analysis, 95/100,
        "Question asks about portfolio composition or asset counts"⟩) ∧
    (∀ q, has_semantic q = false → has_economic q = false →
      has_portfolio q = false → has_geographic q = true →
      classify_intent q = ⟨.geographic_assets, 90/100,
        "Question refers to specific geographic locations"⟩) ∧
    (∀ q, has_semantic q = false → has_economic q = false →
      has_portfolio q = false → has_geographic q = false → has_trend q = true →
      classify_intent q = ⟨.trend_analysis, 85/100,
        "Question asks about trends or changes over time"⟩) ∧
    (∀ q, has_semantic q = false → has_economic q = false →
      has_portfolio q = false → has_geographic q = false → has_trend q = false →
      classify_intent q = ⟨.unknown, 1/2,
        "Could not classify query into known categories"⟩) ∧
    (∀ q, is_sub "sustainable" (py_lower q) = true → is_sub "texas" (py_lower q) = true →
      (classify_intent q).category = .geographic_semantic_combined) := by
  refine ⟨?_, ?_, ?_, ?_, ?_, ?_, ?_, ?_⟩ <;> intro q
  · intro h1 h2; simp [classify_intent, h1, h2]
  · intro h1 h2; simp [classify_intent, h1, h2]
  · intro h1 h2; simp [classify_intent, h1, h2]
  · intro h1 h2 h3; simp [classify_intent, h1, h2, h3]
  · intro h1 h2 h3 h4; simp [classify_intent, h1, h2, h3, h4]
  · intro h1 h2 h3 h4 h5; simp [classify_intent, h1, h2, h3, h4, h5]
  · intro h1 h2 h3 h4 h5; simp [classify_intent, h1, h2, h3, h4, h5]
  · intro h1 h2
    have hs : has_semantic q = true := by
      unfold has_semantic
      refine List.any_eq_true.mpr ⟨"sustainable", by simp [semantic_keywords], ?_⟩
      have : py_lower "sustainable" = "sustainable" := rfl
      rw [this]; exact h1
    have hg : has_geographic q = true := by
      unfold has_geographic
      exact List.any_eq_true.mpr ⟨"texas", by simp [geographic_keywords], h2⟩
    simp [classify_intent, hs, hg]

/-- Witness for C4, instantiated at a question containing both keywords. -/
theorem claim4_witness :
    is_sub "sustainable" (py_lower "Sustainable warehouses in Texas") = true ∧
    is_sub "texas" (py_lower "Sustainable warehouses in Texas") = true ∧
    (classify_intent "Sustainable warehouses in Texas").category =
      .geographic_semantic_combined :=
  ⟨by decide, by decide,
   claim4_classifier_priority.2.2.2.2.2.2.2 "Sustainable warehouses in Texas"
     (by decide) (by decide)⟩

/-! ## Claim C5: the "unemployment rate in California" scenario -/

/-- C5 counterexample: the plan for "unemployment rate in California" binds
the generic metric "Unemployment Rate", not "California Unemployment Rate"
as the claim states (the "unemployment" alias is probed first and the
California-specific alias requires the contiguous phrase
"california unemployment"). -/
theorem claim5_counterexample :
    (classify_intent "unemployment rate in California").category =
      QueryCategory.economic_data ∧
    (generate_economic_query "unemployment rate in California").2.lookup
      "metric_name" = some (PValue.s "Unemployment Rate") ∧
    PValue.s "Unemployment Rate" ≠ PValue.s "California Unemployment Rate" :=
  ⟨rfl, rfl, by decide⟩

/-- C5 amended: for "unemployment rate in California" the classifier returns
EconomicData (confidence 0.90) and the generated plan is the latest-value
template with metric_name bound to "Unemployment Rate".  The response
carries pattern_matched = true exactly when formatting the returned rows
succeeds — in particular whenever the query returns no rows — and
pattern_matched = false through the handler's except-branch when a returned
row holds a non-string metric or date cell, as with the native
neo4j.time.Date values the metric loader stores. -/
theorem claim5_amended :
    (classify_intent "unemployment rate in California").category =
      QueryCategory.economic_data ∧
    (classify_intent "unemployment rate in California").confidence = 90/100 ∧
    (generate_economic_query "unemployment rate in California").1 =
      latest_metric_template ∧
    (generate_economic_query "unemployment rate in California").2 =
      [("metric_name", PValue.s "Unemployment Rate")] ∧
    (∀ (env : Env) (a : String),
      format_economic_data
        (execute_cypher_query env
          (generate_economic_query "unemployment rate in California").1
          (generate_economic_query "unemployment rate in California").2) =
        .ok a →
      ((answer_question env "unemployment rate in California").1.map
        Response.pattern_matched) = some true) ∧
    (∀ (env : Env) (e : String),
      format_economic_data
        (execute_cypher_query env
          (generate_economic_query "unemployment rate in California").1
          (generate_economic_query "unemployment rate in California").2) =
        .error e →
      ((answer_question env "unemployment rate in California").1.map
        Response.pattern_matched) = some false) := by
  refine ⟨rfl, rfl, rfl, rfl, ?_, ?_⟩
  · intro env a hfmt
    show Option.map Response.pattern_matched
      (some (handle_economic_query env "unemployment rate in California"
        (classify_intent "unemployment rate in California")).1) = some true
    unfold handle_economic_query
    simp [hfmt]
  · intro env e hfmt
    show Option.map Response.pattern_matched
      (some (handle_economic_query env "unemployment rate in California"
        (classify_intent "unemployment rate in California")).1) = some false
    unfold handle_economic_query
    simp [hfmt]

/-- Environment whose graph session returns the latest-value row shape the
economic template produces against the loaded graph, with the date column
holding the driver's native date wrapper. -/
def env2 : Env :=
  { openaiKey := none
    embed := fun _ => .error "no key"
    vectorQuery := fun _ => .ok []
    runQuery := fun _ _ =>
      .ok [[("metric", PValue.s "Unemployment Rate"),
            ("current_value", PValue.dec "5.4"),
            ("current_date", PValue.ndate ⟨2024, 5, 1⟩)]] }

/-- Witness for C5 at two concrete runs: a failed session (no rows, so the
formatter succeeds and pattern_matched is true) and a native-date row (the
formatter raises and pattern_matched is false). -/
theorem claim5_amended_witness :
    format_economic_data
      (execute_cypher_query env_err
        (generate_economic_query "unemployment rate in California").1
        (generate_economic_query "unemployment rate in California").2) =
      .ok "No economic data found." ∧
    ((answer_question env_err "unemployment rate in California").1.map
      Response.pattern_matched) = some true ∧
    format_economic_data
      (execute_cypher_query env2
        (generate_economic_query "unemployment rate in California").1
        (generate_economic_query "unemployment rate in California").2) =
      .error "\x27neo4j.time.Date\x27 object is not subscriptable" ∧
    ((answer_question env2 "unemployment rate in California").1.map
      Response.pattern_matched) = some false :=
  ⟨rfl,
   claim5_amended.2.2.2.2.1 env_err "No economic data found." rfl,
   rfl,
   claim5_amended.2.2.2.2.2 env2
     "\x27neo4j.time.Date\x27 object is not subscriptable" rfl⟩

/-! ## Claim C7: state normalization (spec-modelled) -/

/-- C7: the spec-modelled normalize_state resolves "ca", "CA" and
 "california" to "California" (and the typo "califormia" through the fuzzy
pass), returns the fuzzy candidate when only the fuzzy pass hits, and
title-cases any input neither pass resolves; it is total by construction. -/
theorem claim7_normalize_state :
    normalize_state "ca" = "California" ∧
    normalize_state "CA" = "California" ∧
    normalize_state "california" = "California" ∧
    normalize_state "califormia" = "California" ∧
    (∀ s v, alias_lookup s = none → fuzzy_lookup s = some v →
      normalize_state s = v) ∧
    (∀ s, alias_lookup s = none → fuzzy_lookup s = none →
      normalize_state s = py_title s) := by
  refine ⟨rfl, rfl, rfl, rfl, ?_, ?_⟩
  · intro s v h1 h2; unfold normalize_state; rw [h1, h2]
  · intro s h1 h2; unfold normalize_state; rw [h1, h2]

/-- Witness for C7 at the unrecognized input "Oregon". -/
theorem claim7_witness :
    alias_lookup "Oregon" = none ∧ fuzzy_lookup "Oregon" = none ∧
    normalize_state "Oregon" = py_title "Oregon" ∧ py_title "Oregon" = "Oregon" :=
  ⟨rfl, rfl, claim7_normalize_state.2.2.2.2.2 "Oregon" rfl rfl, rfl⟩

/-! ## Claim C8: the query executor never raises -/

/-- C8: execute_cypher_query is total; when the underlying session call
fails with any error it returns the empty sequence, and otherwise it returns
the session's rows unchanged and in order. -/
theorem claim8_execute_never_raises :
    ∀ (env : Env) (c : String) (p : List (String × PValue)),
      (∀ e, env.runQuery c p = .error e → execute_cypher_query env c p = []) ∧
      (∀ rows, env.runQuery c p = .ok rows →
        execute_cypher_query env c p = rows) := by
  intro env c p
  constructor
  · intro e he; unfold execute_cypher_query; rw [he]
  · intro rows hr; unfold execute_cypher_query; rw [hr]

/-- Witness for C8 in an environment whose session calls fail. -/
theorem claim8_witness :
    env_err.runQuery "MATCH (n) RETURN n" [] = .error "connection refused" ∧
    execute_cypher_query env_err "MATCH (n) RETURN n" [] = [] :=
  ⟨rfl,
   (claim8_execute_never_raises env_err "MATCH (n) RETURN n" []).1
     "connection refused" rfl⟩

/-! ## Claim C9: empty-row formatting -/

/-- C9: each answer-formatter branch given an empty row sequence returns its
non-empty, type-appropriate "No ... found" string and raises no exception —
for the fallible economic formatter the empty-row result is `.ok`, i.e. the
branch that models a raised TypeError is not taken. -/
theorem claim9_empty_formatters :
    format_portfolio_table [] = "No portfolio data found." ∧
    format_asset_table [] = "No assets found." ∧
    format_economic_data [] = .ok "No economic data found." ∧
    (∀ q, format_geographic_answer [] q =
      "No matching assets found for this geographic query.") ∧
    ("No portfolio data found." : String) ≠ "" ∧
    ("No assets found." : String) ≠ "" ∧
    ("No economic data found." : String) ≠ "" ∧
    ("No matching assets found for this geographic query." : String) ≠ "" :=
  ⟨rfl, rfl, rfl, fun _ => rfl, by decide, by decide, by decide, by decide⟩

/-! ## Claim C10: totality and defaulting of the economic generator -/

/-- The metric loop returns no metric when no alias key occurs in the
question. -/
theorem find_metric_eq_none (l : List (String × String)) (qL : String)
    (h : ∀ p ∈ l, is_sub p.1 qL = false) : find_metric l qL = none := by
  induction l with
  | nil => rfl
  | cons p t ih =>
    obtain ⟨k, v⟩ := p
    have hk := h (k, v) (List.mem_cons_self _ _)
    simp only [find_metric, hk]
    simp only [Bool.false_eq_true, if_false]
    exact ih fun p hp => h p (List.mem_cons_of_mem _ hp)

/-- C10: generate_economic_query is total; when none of the alias keys
occurs in the question the bound metric silently defaults to
"California Unemployment Rate", and the trend template is selected exactly
when the question contains "trend" or "change". -/
theorem claim10_economic_query_total :
    (∀ q : String, (∀ p ∈ economic_metrics, is_sub p.1 (py_lower q) = false) →
      (generate_economic_query q).2 =
        [("metric_name", PValue.s "California Unemployment Rate")]) ∧
    (∀ q : String, (generate_economic_query q).1 = trend_analysis_template ↔
      (is_sub "trend" (py_lower q) || is_sub "change" (py_lower q)) = true) := by
  constructor
  · intro q h
    have hn : find_metric economic_metrics (py_lower q) = none :=
      find_metric_eq_none _ _ h
    simp only [generate_economic_query, hn, Option.getD_none]
    split <;> rfl
  · intro q
    unfold generate_economic_query
    cases hc : (is_sub "trend" (py_lower q) || is_sub "change" (py_lower q)) with
    | true => simp [hc]
    | false =>
      simp only [hc, Bool.false_eq_true, if_false]
      constructor
      · intro h
        exact absurd h (by decide)
      · intro h
        exact absurd h (by decide)

/-- Witness for C10 at a question containing no alias key. -/
theorem claim10_witness :
    (∀ p ∈ economic_metrics, is_sub p.1 (py_lower "gdp figures") = false) ∧
    (generate_economic_query "gdp figures").2 =
      [("metric_name", PValue.s "California Unemployment Rate")] :=
  ⟨by decide, claim10_economic_query_total.1 "gdp figures" (by decide)⟩

/-! ## Claim C6: the result normalizer -/

mutual
theorem serialize_temporal_free :
    ∀ v : JVal, temporal_free (serialize_neo4j_types v) = true
  | .date _ => rfl
  | .datetime _ => rfl
  | .neoDate _ => rfl
  | .neoDateTime _ => rfl
  | .str _ => rfl
  | .int _ => rfl
  | .real _ => rfl
  | .bool _ => rfl
  | .none => rfl
  | .dict fs => by
    simp only [serialize_neo4j_types, temporal_free]
    exact serialize_fields_temporal_free fs
  | .list vs => by
    simp only [serialize_neo4j_types, temporal_free]
    exact serialize_items_temporal_free vs

theorem serialize_fields_temporal_free :
    ∀ fs : JFields, temporal_free_fields (serialize_fields fs) = true
  | .nil => rfl
  | .cons k v t => by
    simp only [serialize_fields, temporal_free_fields, Bool.and_eq_true]
    exact ⟨serialize_temporal_free v, serialize_fields_temporal_free t⟩

theorem serialize_items_temporal_free :
    ∀ vs : JItems, temporal_free_items (serialize_items vs) = true
  | .nil => rfl
  | .cons v t => by
    simp only [serialize_items, temporal_free_items, Bool.and_eq_true]
    exact ⟨serialize_temporal_free v, serialize_items_temporal_free t⟩
end

mutual
theorem serialize_idem :
    ∀ v : JVal,
      serialize_neo4j_types (serialize_neo4j_types v) = serialize_neo4j_types v
  | .date _ => rfl
  | .datetime _ => rfl
  | .neoDate _ => rfl
  | .neoDateTime _ => rfl
  | .str _ => rfl
  | .int _ => rfl
  | .real _ => rfl
  | .bool _ => rfl
  | .none => rfl
  | .dict fs => by
    simp only [serialize_neo4j_types]
    exact congrArg JVal.dict (serialize_fields_idem fs)
  | .list vs => by
    simp only [serialize_neo4j_types]
    exact congrArg JVal.list (serialize_items_idem vs)

theorem serialize_fields_idem :
    ∀ fs : JFields, serialize_fields (serialize_fields fs) = serialize_fields fs
  | .nil => rfl
  | .cons k v t => by
    simp only [serialize_fields]
    rw [serialize_idem v, serialize_fields_idem t]

theorem serialize_items_idem :
    ∀ vs : JItems, serialize_items (serialize_items vs) = serialize_items vs
  | .nil => rfl
  | .cons v t => by
    simp only [serialize_items]
    rw [serialize_idem v, serialize_items_idem t]
end

/-- C6: serialize_neo4j_types rewrites every date/datetime value (including
the driver's temporal wrappers) to its ISO-8601 string, recurses through
mappings and sequences, passes every other scalar through unchanged, leaves
no temporal value in its output, and is idempotent. -/
theorem claim6_serializer_contract :
    (∀ d, serialize_neo4j_types (.date d) = .str (date_isoformat d)) ∧
    (∀ d, serialize_neo4j_types (.datetime d) = .str (datetime_isoformat d)) ∧
    (∀ d, serialize_neo4j_types (.neoDate d) = .str (neo_date_str d)) ∧
    (∀ d, serialize_neo4j_types (.neoDateTime d) = .str (neo_datetime_str d)) ∧
    (∀ fs, serialize_neo4j_types (.dict fs) = .dict (serialize_fields fs)) ∧
    (∀ vs, serialize_neo4j_types (.list vs) = .list (serialize_items vs)) ∧
    (∀ s, serialize_neo4j_types (.str s) = .str s) ∧
    (∀ n, serialize_neo4j_types (.int n) = .int n) ∧
    (∀ x, serialize_neo4j_types (.real x) = .real x) ∧
    (∀ b, serialize_neo4j_types (.bool b) = .bool b) ∧
    (serialize_neo4j_types .none = .none) ∧
    (∀ v, temporal_free (serialize_neo4j_types v) = true) ∧
    (∀ v, serialize_neo4j_types (serialize_neo4j_types v) =
      serialize_neo4j_types v) :=
  ⟨fun _ => rfl, fun _ => rfl, fun _ => rfl, fun _ => rfl, fun _ => rfl,
   fun _ => rfl, fun _ => rfl, fun _ => rfl, fun _ => rfl, fun _ => rfl, rfl,
   serialize_temporal_free, serialize_idem⟩

/-! ## Helper lemmas about the hybrid path and the handlers -/

theorem count_embeds_append (l l' : List Event) :
    count_embeds (l ++ l') = count_embeds l + count_embeds l' := by
  induction l with
  | nil => simp [count_embeds]
  | cons e t ih =>
    cases e with
    | embed _ => simp [count_embeds, ih, Nat.add_assoc]
    | dbQuery _ => simp [count_embeds, ih]

theorem mem_apply_filter_matches {data : List Row} {f : GeoFilters}
    (hf : geo_nonempty f = true) {r : Row}
    (hr : r ∈ apply_geographic_filter data f) :
    asset_matches f r = true ∧ r ∈ data := by
  simp [apply_geographic_filter, hf, List.mem_filter] at hr
  exact ⟨hr.2, hr.1⟩

theorem semantic_geo_fallback_qt (env : Env) (q : String)
    (i : IntentClassification) (geo : GeoFilters) (ev1 : List Event) :
    ∀ r, (semantic_geo_fallback env q i geo ev1).1 = some r →
      r.query_type = some "geographic_fallback_search" := by
  intro r h
  simp only [semantic_geo_fallback] at h
  simp at h
  subst h
  rfl

theorem semantic_no_geo_block_qt (env : Env) (q : String)
    (i : IntentClassification) :
    ∀ r, (semantic_no_geo_block env q i).1 = some r →
      r.query_type = some "semantic_vector_search" ∨ r.query_type = none := by
  intro r h
  simp only [semantic_no_geo_block] at h
  split at h
  · split at h
    · split at h
      · simp at h; subst h; exact Or.inl rfl
      · simp at h; subst h; exact Or.inl rfl
    · simp at h; subst h; exact Or.inl rfl
  · simp at h; subst h; exact Or.inr rfl

theorem semantic_geo_fallback_P (env : Env) (q : String)
    (i : IntentClassification) (geo : GeoFilters) (ev1 : List Event) :
    ∀ r, (semantic_geo_fallback env q i geo ev1).1 = some r →
      (r.pattern_matched = true → r.cypher ≠ none) ∧
      (r.pattern_matched = false → r.data = [] ∨
        r.query_type = some "general_fallback") := by
  intro r h
  simp only [semantic_geo_fallback] at h
  simp at h
  subst h
  exact ⟨fun _ => by simp, fun hpm => by simp at hpm⟩

theorem semantic_no_geo_block_P (env : Env) (q : String)
    (i : IntentClassification) :
    ∀ r, (semantic_no_geo_block env q i).1 = some r →
      (r.pattern_matched = true → r.cypher ≠ none) ∧
      (r.pattern_matched = false → r.data = [] ∨
        r.query_type = some "general_fallback") := by
  intro r h
  simp only [semantic_no_geo_block] at h
  split at h
  · split at h
    · split at h
      · simp at h; subst h
        exact ⟨fun _ => by simp, fun hpm => by simp at hpm⟩
      · simp at h; subst h
        exact ⟨fun _ => by simp, fun hpm => by simp at hpm⟩
    · simp at h; subst h
      exact ⟨fun _ => by simp, fun hpm => by simp at hpm⟩
  · simp at h; subst h
    exact ⟨fun hpm => by simp at hpm, fun _ => Or.inl rfl⟩

theorem handle_economic_P (env : Env) (q : String) (i : IntentClassification) :
    ((handle_economic_query env q i).1.pattern_matched = true →
      (handle_economic_query env q i).1.cypher ≠ none) ∧
    ((handle_economic_query env q i).1.pattern_matched = false →
      (handle_economic_query env q i).1.data = [] ∨
      (handle_economic_query env q i).1.query_type =
        some "general_fallback") := by
  simp only [handle_economic_query]
  split
  · exact ⟨fun _ => by simp, fun hpm => by simp at hpm⟩
  · exact ⟨fun hpm => by simp at hpm, fun _ => Or.inl rfl⟩

theorem handle_trend_P (env : Env) (q : String) (i : IntentClassification) :
    ((handle_trend_query env q i).1.pattern_matched = true →
      (handle_trend_query env q i).1.cypher ≠ none) ∧
    ((handle_trend_query env q i).1.pattern_matched = false →
      (handle_trend_query env q i).1.data = [] ∨
      (handle_trend_query env q i).1.query_type = some "general_fallback") := by
  simp only [handle_trend_query]
  split
  · exact ⟨fun _ => by simp, fun hpm => by simp at hpm⟩
  · split
    · exact ⟨fun _ => by simp, fun hpm => by simp at hpm⟩
    · exact ⟨fun hpm => by simp at hpm, fun _ => Or.inl rfl⟩

theorem handle_semantic_P (env : Env) (q : String) (i : IntentClassification) :
    ∀ r, (handle_semantic_query env q i).1 = some r →
      (r.pattern_matched = true → r.cypher ≠ none) ∧
      (r.pattern_matched = false → r.data = [] ∨
        r.query_type = some "general_fallback") := by
  intro r h
  simp only [handle_semantic_query] at h
  split at h
  · split at h
    · exact absurd h (by simp)
    · exact semantic_no_geo_block_P env q i r (by simpa using h)
  · split at h
    · split at h
      · split at h
        · exact semantic_geo_fallback_P env q i _ _ r h
        · split at h
          · simp at h; subst h
            exact ⟨fun _ => by simp, fun hpm => by simp at hpm⟩
          · simp at h; subst h
            exact ⟨fun _ => by simp, fun hpm => by simp at hpm⟩
      · exact semantic_geo_fallback_P env q i _ _ r h
    · exact semantic_no_geo_block_P env q i r (by simpa using h)

/-! ## Claim C3: the missing-return path of the semantic handler -/

/-- C3 failing input: for a question that is classified as combined
geo+semantic and phrased as asset similarity, no return statement of
`_handle_semantic_query` executes, so `answer_question` produces no response
object at all, for every environment. -/
theorem claim3_none_response :
    ∀ env : Env,
      (answer_question env "assets similar to Tribune Tower in Chicago").1 =
        none :=
  fun _ => rfl

/-! ## Claim C1: the response dichotomy -/

/-- C1 counterexample: with the unclassifiable question "zebras" and a graph
session returning one portfolio row, the surfaced response carries
pattern_matched = false together with non-empty data, contradicting the
claimed dichotomy. -/
theorem claim1_counterexample :
    (answer_question env0 "zebras").1.map
      (fun r => (r.pattern_matched, r.data.isEmpty)) = some (false, false) :=
  rfl

/-- C1 amended: every surfaced response with pattern_matched = true carries a
non-null cypher/plan string; a response with pattern_matched = false carries
empty data unless it comes from the general fallback path, whose portfolio
probe may surface non-empty data. -/
theorem claim1_dichotomy_amended :
    ∀ (env : Env) (q : String) (r : Response),
      (answer_question env q).1 = some r →
      (r.pattern_matched = true → r.cypher ≠ none) ∧
      (r.pattern_matched = false → r.data = [] ∨
        r.query_type = some "general_fallback") := by
  intro env q r h
  simp only [answer_question] at h
  split at h
  · exact handle_semantic_P env q _ r h
  · exact handle_semantic_P env q _ r h
  · simp at h; subst h
    exact ⟨fun _ => by simp [handle_portfolio_query],
           fun hpm => by simp [handle_portfolio_query] at hpm⟩
  · simp at h; subst h
    exact ⟨fun _ => by simp [handle_geographic_query],
           fun hpm => by simp [handle_geographic_query] at hpm⟩
  · simp at h; subst h
    exact handle_economic_P env q _
  · simp at h; subst h
    exact handle_trend_P env q _
  · simp at h; subst h
    exact ⟨fun hpm => by simp [handle_general_query] at hpm,
           fun _ => Or.inr (by simp [handle_general_query])⟩

instance : Inhabited Response :=
  ⟨{ answer := "", cypher := none, data := [], question := "",
     pattern_matched := false }⟩

/-- Witness for C1 at the concrete general-fallback run. -/
theorem claim1_amended_witness :
    (answer_question env0 "zebras").1 =
      some ((answer_question env0 "zebras").1.getD default) ∧
    ((((answer_question env0 "zebras").1.getD default).pattern_matched = true →
        ((answer_question env0 "zebras").1.getD default).cypher ≠ none) ∧
     (((answer_question env0 "zebras").1.getD default).pattern_matched = false →
        ((answer_question env0 "zebras").1.getD default).data = [] ∨
        ((answer_question env0 "zebras").1.getD default).query_type =
          some "general_fallback")) :=
  ⟨rfl, claim1_dichotomy_amended env0 "zebras" _ rfl⟩

/-! ## Claim C2: hybrid ordering -/

/-- C2 counterexample: for "sustainable properties in Texas" in an
environment whose vector index holds a single Wisconsin asset, the ranking
phase returns one entity, the geographic filter then excludes every ranked
entity (it matches zero of them), and yet exactly one embedding call was
made — the filter never guards the ranking. -/
theorem claim2_counterexample :
    (parse_vector_search_results
      (vector_search_tool env1 "sustainable properties in Texas")).length = 1 ∧
    apply_geographic_filter
      (parse_vector_search_results
        (vector_search_tool env1 "sustainable properties in Texas"))
      (extract_geographic_filter "sustainable properties in Texas") = [] ∧
    count_embeds (answer_question env1 "sustainable properties in Texas").2 = 1 ∧
    (answer_question env1 "sustainable properties in Texas").1.map
      Response.query_type =
      some (some "geographic_semantic_search_no_results") :=
  ⟨rfl, rfl, rfl, rfl⟩

/-- C2 amended: the hybrid path ranks first and filters second — the
geographic filter only ever removes entities from the already-ranked data
(everything it passes satisfies the filter predicate), the combined
non-similarity path makes exactly one embedding call regardless of how many
entities pass the filter, and every asset surfaced by the combined
vector-search response satisfies the question's geographic filter. -/
theorem claim2_amended :
    (∀ (data : List Row) (f : GeoFilters), geo_nonempty f = true →
      ∀ r ∈ apply_geographic_filter data f,
        asset_matches f r = true ∧ r ∈ data) ∧
    (∀ (env : Env) (q : String) (i : IntentClassification),
      (is_sub "similar to" (py_lower q) || is_sub "like" (py_lower q) ||
        is_sub "comparable" (py_lower q)) = false →
      geo_nonempty (extract_geographic_filter q) = true →
      env.openaiKey.isSome = true →
      count_embeds (handle_semantic_query env q i).2 = 1) ∧
    (∀ (env : Env) (q : String) (i : IntentClassification) (r : Response),
      (handle_semantic_query env q i).1 = some r →
      r.query_type = some "geographic_semantic_vector_search" →
      ∀ a ∈ r.data, asset_matches (extract_geographic_filter q) a = true) := by
  refine ⟨?_, ?_, ?_⟩
  · intro data f hf r hr
    exact mem_apply_filter_matches hf hr
  · intro env q i h1 h2 h3
    obtain ⟨k, hk⟩ := Option.isSome_iff_exists.mp h3
    have hev : vector_search_events env q = [Event.embed (py_replace_nl q)] := by
      unfold vector_search_events; rw [hk]
    simp only [handle_semantic_query, h1, Bool.false_eq_true, if_false, h2,
      if_true, semantic_geo_fallback, hev]
    split
    · split
      · simp [count_embeds, count_embeds_append]
      · split
        · simp [count_embeds]
        · simp [count_embeds]
    · simp [count_embeds, count_embeds_append]
  · intro env q i r h hqt a ha
    simp only [handle_semantic_query] at h
    split at h
    · split at h
      · exact absurd h (by simp)
      · rcases semantic_no_geo_block_qt env q i r (by simpa using h) with h' | h' <;>
          rw [h'] at hqt <;> simp at hqt
    · split at h
      · rename_i hgeo
        split at h
        · split at h
          · rw [semantic_geo_fallback_qt env q i _ _ r h] at hqt
            simp at hqt
          · split at h
            · simp at h; subst h
              simp at hqt
            · simp at h; subst h
              exact (mem_apply_filter_matches hgeo ha).1
        · rw [semantic_geo_fallback_qt env q i _ _ r h] at hqt
          simp at hqt
      · rcases semantic_no_geo_block_qt env q i r (by simpa using h) with h' | h' <;>
          rw [h'] at hqt <;> simp at hqt

/-- Witness for C2 at the concrete combined run. -/
theorem claim2_amended_witness :
    ((is_sub "similar to" (py_lower "sustainable properties in Texas") ||
       is_sub "like" (py_lower "sustainable properties in Texas") ||
       is_sub "comparable" (py_lower "sustainable properties in Texas")) =
      false) ∧
    geo_nonempty
      (extract_geographic_filter "sustainable properties in Texas") = true ∧
    env1.openaiKey.isSome = true ∧
    count_embeds (handle_semantic_query env1 "sustainable properties in Texas"
      (classify_intent "sustainable properties in Texas")).2 = 1 :=
  ⟨by decide, by decide, rfl,
   claim2_amended.2.1 env1 "sustainable properties in Texas" _
     (by decide) (by decide) rfl⟩

end AssetInsight
